import Mathlib

/-!
Verification of the Budget1 real-time ledger core (src/src/app.js).

The embedding models, from the source:
* the stored ledger entries and the local mirror snapshot (`Item`, `Snapshot`);
* the aggregation `useMemo` (app.js lines 238-252) as `derive`;
* the mutation handlers `handleAddItem` (206-223), `handleDeleteItem`
  (225-235) and the form's `handleSubmit` (26-35) as producers of traces of
  `Action`s (state setter calls, alerts, and network attempts), applied to an
  explicit `AppState`;
* the data-fetching effect (176-203) with its guard and `onSnapshot` callback;
* the Remote Ledger Store boundary (spec section 6): an ordered query result
  and the effect of write attempts on the store contents.

JavaScript numbers are modelled as rationals; `parseFloat` returns
`Option Rat`, `none` standing for NaN, on the fragment of plain decimal
numerals (the only inputs the claims exercise).  A JS string is falsy exactly
when it is empty; a nullable string is `Option String`.
-/

namespace Budget

/-- A stored ledger entry as materialised in the mirror: `{id: doc.id,
...doc.data()}` with the fields written by `handleAddItem`. -/
structure Item where
  id : String
  description : String
  amount : ℚ
  type : String
  createdAt : ℤ
  authorId : Option String
deriving DecidableEq

/-- The Ledger Mirror's materialised ordered sequence (the `items` state). -/
abbrev Snapshot := List Item

/-! ### Aggregation Engine: the `useMemo` at app.js lines 238-252 -/

/-- `items.filter(item => item.type === 'income')` (line 239). -/
def incomeItems (items : Snapshot) : Snapshot :=
  items.filter (fun item => item.type == "income")

/-- `items.filter(item => item.type === 'expense')` (line 240). -/
def expenseItems (items : Snapshot) : Snapshot :=
  items.filter (fun item => item.type == "expense")

/-- `incomeItems.reduce((sum, item) => sum + item.amount, 0)` (line 242). -/
def totalIncome (items : Snapshot) : ℚ :=
  (incomeItems items).foldl (fun sum item => sum + item.amount) 0

/-- `expenseItems.reduce((sum, item) => sum + item.amount, 0)` (line 243). -/
def totalExpenses (items : Snapshot) : ℚ :=
  (expenseItems items).foldl (fun sum item => sum + item.amount) 0

/-- The Derived Aggregate returned by the `useMemo` (lines 245-251). -/
structure Aggregate where
  totalIncome : ℚ
  totalExpenses : ℚ
  balance : ℚ
  incomeItems : Snapshot
  expenseItems : Snapshot
deriving DecidableEq

/-- The aggregation `useMemo` body (lines 238-252) as a pure function of the
current snapshot. -/
def derive (items : Snapshot) : Aggregate :=
  { totalIncome := totalIncome items
    totalExpenses := totalExpenses items
    balance := totalIncome items - totalExpenses items
    incomeItems := incomeItems items
    expenseItems := expenseItems items }

/-! ### JS helpers -/

/-- JS string falsiness for a nullable string (`!userId` style tests):
`null`/`undefined` and the empty string are falsy. -/
def jsFalsyStr : Option String → Bool
  | none => true
  | some s => s.isEmpty

/-- Accumulate decimal digits; `none` as soon as a non-digit occurs. -/
def digitsToNatAux : Option ℕ → List Char → Option ℕ
  | acc, [] => acc
  | acc, c :: rest =>
    digitsToNatAux
      (acc.bind fun n =>
        if c.isDigit then some (10 * n + (c.toNat - 48)) else none)
      rest

/-- Digits of a numeral to a natural number; `none` when empty or when a
non-digit occurs. -/
def digitsToNat (cs : List Char) : Option ℕ :=
  match cs with
  | [] => none
  | _ => digitsToNatAux (some 0) cs

/-- Split at the first decimal point, if any. -/
def splitAtDot : List Char → List Char × Option (List Char)
  | [] => ([], none)
  | c :: rest =>
    if c = '.' then ([], some rest)
    else
      let p := splitAtDot rest
      (c :: p.1, p.2)

/-- An unsigned decimal numeral, integer part and optional fraction part. -/
def parseUnsignedFloat (cs : List Char) : Option ℚ :=
  match splitAtDot cs with
  | (intPart, none) => (digitsToNat intPart).map (fun n => (n : ℚ))
  | (intPart, some fracPart) =>
    (digitsToNat intPart).bind fun n =>
      (digitsToNat fracPart).map fun f =>
        (n : ℚ) + (f : ℚ) / ((10 : ℚ) ^ fracPart.length)

/-- JS `parseFloat` on the fragment of plain signed decimal numerals; `none`
models the NaN result on other inputs. -/
def parseFloat (s : String) : Option ℚ :=
  match s.toList with
  | '-' :: rest => (parseUnsignedFloat rest).map (fun q => -q)
  | '+' :: rest => parseUnsignedFloat rest
  | cs => parseUnsignedFloat cs

/-! ### Mutation Gateway: handlers as traces of effects -/

/-- The object `{description, amount: parseFloat(amount), type}` passed by the
form to `onAddItem`; `amount` is `Option Rat` because `parseFloat` can yield
NaN. -/
structure NewItem where
  description : String
  amount : Option ℚ
  type : String
deriving DecidableEq

/-- Whether the awaited store call resolved or rejected. -/
inductive WriteOutcome where
  | success
  | failure
deriving DecidableEq

/-- One observable effect of a handler: a React state setter call, an alert,
or a network attempt against the store (recorded with its outcome). -/
inductive Action where
  | setLoading (b : Bool)
  | setError (msg : String)
  | setItems (items : Snapshot)
  | alertMsg (msg : String)
  | addDocAttempt (item : NewItem) (authorId : Option String) (outcome : WriteOutcome)
  | deleteDocAttempt (id : String) (outcome : WriteOutcome)
deriving DecidableEq

/-- The component's local state touched by the handlers. -/
structure AppState where
  items : Snapshot
  loading : Bool
  error : Option String
deriving DecidableEq

/-- Effect of one action on the local component state; network attempts and
alerts do not touch it. -/
def applyAction (s : AppState) : Action → AppState
  | .setLoading b => { s with loading := b }
  | .setError msg => { s with error := some msg }
  | .setItems items => { s with items := items }
  | .alertMsg _ => s
  | .addDocAttempt _ _ _ => s
  | .deleteDocAttempt _ _ => s

/-- Run a handler trace over the local state. -/
def applyActions (s : AppState) (actions : List Action) : AppState :=
  actions.foldl applyAction s

/-- `handleAddItem` (app.js lines 206-223): early return when `db` is null;
otherwise `setLoading(true)`, attempt `addDoc`, on rejection
`setError("Could not add the item.")`, and in `finally` `setLoading(false)`. -/
def handleAddItem (db : Bool) (userId : Option String) (item : NewItem)
    (outcome : WriteOutcome) : List Action :=
  if !db then []
  else
    [Action.setLoading true, Action.addDocAttempt item userId outcome]
      ++ (match outcome with
          | .success => []
          | .failure => [Action.setError "Could not add the item."])
      ++ [Action.setLoading false]

/-- `handleDeleteItem` (app.js lines 225-235): early return when `db` is null;
otherwise attempt `deleteDoc`, on rejection
`setError("Could not delete the item.")`.  It never touches `loading`. -/
def handleDeleteItem (db : Bool) (id : String) (outcome : WriteOutcome) :
    List Action :=
  if !db then []
  else
    [Action.deleteDocAttempt id outcome]
      ++ (match outcome with
          | .success => []
          | .failure => [Action.setError "Could not delete the item."])

/-- `AddItemForm.handleSubmit` (app.js lines 26-35): alert and return when the
`description` or `amount` string state is falsy (empty); otherwise call
`onAddItem` (= `handleAddItem`) with `amount: parseFloat(amount)`. -/
def handleSubmit (db : Bool) (userId : Option String)
    (description amountStr ty : String) (outcome : WriteOutcome) : List Action :=
  if description.isEmpty || amountStr.isEmpty then
    [Action.alertMsg "Please fill out both description and amount."]
  else
    handleAddItem db userId
      { description := description, amount := parseFloat amountStr, type := ty }
      outcome

/-! ### Remote Ledger Store boundary and the Ledger Mirror -/

/-- The data fields of a document held by the Remote Ledger Store. -/
structure DocData where
  description : String
  amount : ℚ
  type : String
  createdAt : ℤ
  authorId : Option String
deriving DecidableEq

/-- A store document: server-assigned id plus data. -/
structure StoreDoc where
  id : String
  data : DocData
deriving DecidableEq

/-- `{id: doc.id, ...doc.data()}` (app.js lines 188-191). -/
def docToItem (d : StoreDoc) : Item :=
  { id := d.id
    description := d.data.description
    amount := d.data.amount
    type := d.data.type
    createdAt := d.data.createdAt
    authorId := d.data.authorId }

/-- Ordering used by `query(itemsCollection, orderBy('createdAt', 'desc'))`
(app.js line 184): `a` may precede `b` when `a`'s timestamp is at least
`b`'s. -/
def createdAtDesc (a b : StoreDoc) : Prop :=
  b.data.createdAt ≤ a.data.createdAt

instance : DecidableRel createdAtDesc := fun a b =>
  inferInstanceAs (Decidable (b.data.createdAt ≤ a.data.createdAt))

instance : IsTotal StoreDoc createdAtDesc :=
  ⟨fun a b => (le_total a.data.createdAt b.data.createdAt).symm⟩

instance : IsTrans StoreDoc createdAtDesc :=
  ⟨fun _ _ _ h1 h2 => le_trans h2 h1⟩

/-- The store boundary (spec section 6): a subscription created with
`orderBy('createdAt', 'desc')` delivers the full current document set sorted
by `createdAt` descending. -/
def queryCreatedAtDesc (docs : List StoreDoc) : List StoreDoc :=
  List.insertionSort createdAtDesc docs

/-- The `onSnapshot` success callback (app.js lines 187-193): map the docs to
items, `setItems`, `setLoading(false)`. -/
def onSnapshotCallback (docs : List StoreDoc) : List Action :=
  [Action.setItems (docs.map docToItem), Action.setLoading false]

/-- The snapshot the Ledger Mirror holds after a change event on store
contents `docs`: the ordered query result mapped through `docToItem`. -/
def mirrorSnapshot (docs : List StoreDoc) : Snapshot :=
  (queryCreatedAtDesc docs).map docToItem

/-- Guard of the data-fetching `useEffect` (app.js line 178):
`if (!db || !isAuthReady || !userId) return;`.  Returns the established
subscription (its collection path and order key), or `none` when the guard
fires. -/
def dataFetchingEffect (db isAuthReady : Bool) (userId : Option String)
    (appId : String) : Option (String × String × Bool) :=
  if !db || !isAuthReady || jsFalsyStr userId then none
  else some ("artifacts/" ++ appId ++ "/public/data/budget-items", "createdAt", true)

/-- Effect of one handler action on the store contents.  `assign` models the
store's assignment of `id` and `createdAt` to an inserted document.  A
successful `deleteDoc` removes the document when present and is a benign
no-op when absent (the store reports not-found as success, spec section 6). -/
def storeStep (assign : NewItem → Option String → StoreDoc)
    (store : List StoreDoc) : Action → List StoreDoc
  | .addDocAttempt item uid outcome =>
    match outcome with
    | .success => store ++ [assign item uid]
    | .failure => store
  | .deleteDocAttempt id outcome =>
    match outcome with
    | .success => store.filter (fun d => !(d.id == id))
    | .failure => store
  | _ => store

/-- Run a handler trace over the store contents. -/
def storeRun (assign : NewItem → Option String → StoreDoc)
    (store : List StoreDoc) (actions : List Action) : List StoreDoc :=
  actions.foldl (storeStep assign) store

/-- A network interaction with the store. -/
def isNetworkAttempt : Action → Bool
  | .addDocAttempt _ _ _ => true
  | .deleteDocAttempt _ _ => true
  | _ => false

/-- A `setLoading` call. -/
def isSetLoading : Action → Bool
  | .setLoading _ => true
  | _ => false

/-- A `setItems` call (a direct write to the mirror snapshot). -/
def isSetItems : Action → Bool
  | .setItems _ => true
  | _ => false

/-- An `alert` call (the form's only validation signal). -/
def isAlert : Action → Bool
  | .alertMsg _ => true
  | _ => false

/-- `loading` is true at the moment every network attempt in the trace is
issued, starting from state `s`. -/
def busyDuring (s : AppState) : List Action → Bool
  | [] => true
  | a :: rest =>
    (!isNetworkAttempt a || s.loading) && busyDuring (applyAction s a) rest

/-- A sample snapshot used to witness theorems with hypotheses. -/
def sampleS : Snapshot :=
  [{ id := "a", description := "Paycheck", amount := 1000, type := "income",
     createdAt := 1, authorId := some "u1" },
   { id := "b", description := "Groceries", amount := 3/2, type := "expense",
     createdAt := 2, authorId := some "u2" }]

/-- Sample store contents used to witness theorems with hypotheses. -/
def sampleDocs : List StoreDoc :=
  [⟨"a", ⟨"Paycheck", 1000, "income", 5, some "u1"⟩⟩,
   ⟨"b", ⟨"Groceries", 3/2, "expense", 9, some "u2"⟩⟩]

/-! ### Theorems -/

theorem foldl_add_amount (l : List Item) (a : ℚ) :
    l.foldl (fun sum item => sum + item.amount) a = a + (l.map Item.amount).sum := by
  induction l generalizing a with
  | nil => simp
  | cons x xs ih => simp [ih, add_assoc]

/-- C3: for every Snapshot S, `derive S` has `totalIncome` equal to the sum of
amounts of entries of type income, `totalExpenses` equal to the sum of amounts
of entries of type expense, and `balance` equal to their difference. -/
theorem derive_totals_and_balance (S : Snapshot) :
    (derive S).totalIncome
        = ((S.filter (fun item => item.type == "income")).map Item.amount).sum
    ∧ (derive S).totalExpenses
        = ((S.filter (fun item => item.type == "expense")).map Item.amount).sum
    ∧ (derive S).balance = (derive S).totalIncome - (derive S).totalExpenses := by
  refine ⟨?_, ?_, rfl⟩ <;>
    simp [derive, totalIncome, totalExpenses, incomeItems, expenseItems,
      foldl_add_amount]

/-- C2: for every Snapshot S whose entries all carry a legal type,
`derive S` partitions S totally and exclusively: an income entry lands in
`incomeItems`, any other entry lands in `expenseItems`, the two partitions
together are a permutation of S, and no entry is in both. -/
theorem derive_partitions (S : Snapshot)
    (h : ∀ e ∈ S, e.type = "income" ∨ e.type = "expense") :
    (∀ e ∈ S, (e.type = "income" → e ∈ (derive S).incomeItems)
        ∧ (e.type ≠ "income" → e ∈ (derive S).expenseItems))
    ∧ ((derive S).incomeItems ++ (derive S).expenseItems).Perm S
    ∧ (∀ e, e ∈ (derive S).incomeItems → e ∈ (derive S).expenseItems → False) := by
  refine ⟨?_, ?_, ?_⟩
  · intro e he
    constructor
    · intro ht
      simp only [derive, incomeItems]
      exact List.mem_filter.mpr ⟨he, by simp [ht]⟩
    · intro ht
      rcases h e he with h1 | h2
      · exact absurd h1 ht
      · simp only [derive, expenseItems]
        exact List.mem_filter.mpr ⟨he, by simp [h2]⟩
  · have hexp : expenseItems S = S.filter (fun e => !(e.type == "income")) := by
      apply List.filter_congr
      intro e he
      rcases h e he with h1 | h2
      · simp [h1]
      · simp [h2]
    show (incomeItems S ++ expenseItems S).Perm S
    rw [hexp]
    exact List.filter_append_perm _ S
  · intro e h1 h2
    have t1 := (List.mem_filter.mp h1).2
    have t2 := (List.mem_filter.mp h2).2
    simp only [beq_iff_eq] at t1 t2
    rw [t1] at t2
    exact absurd t2 (by decide)

/-- Witness for C2 at a concrete two-entry snapshot. -/
theorem derive_partitions_witness :
    (∀ e ∈ sampleS, e.type = "income" ∨ e.type = "expense")
    ∧ ((∀ e ∈ sampleS, (e.type = "income" → e ∈ (derive sampleS).incomeItems)
          ∧ (e.type ≠ "income" → e ∈ (derive sampleS).expenseItems))
       ∧ ((derive sampleS).incomeItems ++ (derive sampleS).expenseItems).Perm sampleS
       ∧ (∀ e, e ∈ (derive sampleS).incomeItems
            → e ∈ (derive sampleS).expenseItems → False)) :=
  ⟨by decide, derive_partitions sampleS (by decide)⟩

/-- C10: when the database handle is null, `handleAddItem` and
`handleDeleteItem` return immediately: the trace is empty, so the local state
(loading flag, error, mirror) and the store are untouched. -/
theorem db_null_noop (s : AppState) (store : List StoreDoc)
    (assign : NewItem → Option String → StoreDoc) (uid : Option String)
    (item : NewItem) (id : String) (o : WriteOutcome) :
    handleAddItem false uid item o = []
    ∧ handleDeleteItem false id o = []
    ∧ applyActions s (handleAddItem false uid item o) = s
    ∧ storeRun assign store (handleAddItem false uid item o) = store
    ∧ applyActions s (handleDeleteItem false id o) = s
    ∧ storeRun assign store (handleDeleteItem false id o) = store :=
  ⟨rfl, rfl, rfl, rfl, rfl, rfl⟩

/-- C6: when the store rejects an add, the handler surfaces the write error,
leaves the mirror items unchanged, clears the loading flag, and the store
contents are unchanged (no entry is created). -/
theorem add_failure_state (s : AppState) (store : List StoreDoc)
    (assign : NewItem → Option String → StoreDoc) (uid : Option String)
    (item : NewItem) :
    applyActions s (handleAddItem true uid item .failure)
        = { items := s.items, loading := false,
            error := some "Could not add the item." }
    ∧ storeRun assign store (handleAddItem true uid item .failure) = store :=
  ⟨rfl, rfl⟩

/-- C7: neither mutation handler ever writes the mirror snapshot (no
`setItems` in any trace, items field unchanged for every outcome); the
subscription callback is the writer that replaces the items wholesale. -/
theorem mirror_written_only_by_subscription :
    (∀ (s : AppState) (db : Bool) (uid : Option String) (item : NewItem)
        (o : WriteOutcome),
      (applyActions s (handleAddItem db uid item o)).items = s.items)
    ∧ (∀ (s : AppState) (db : Bool) (id : String) (o : WriteOutcome),
      (applyActions s (handleDeleteItem db id o)).items = s.items)
    ∧ (∀ (db : Bool) (uid : Option String) (item : NewItem) (o : WriteOutcome),
      (handleAddItem db uid item o).filter isSetItems = [])
    ∧ (∀ (db : Bool) (id : String) (o : WriteOutcome),
      (handleDeleteItem db id o).filter isSetItems = [])
    ∧ (∀ (s : AppState) (docs : List StoreDoc),
      (applyActions s (onSnapshotCallback docs)).items = docs.map docToItem) := by
  refine ⟨?_, ?_, ?_, ?_, ?_⟩
  · intro s db uid item o
    cases db <;> cases o <;> rfl
  · intro s db id o
    cases db <;> cases o <;> rfl
  · intro db uid item o
    cases db <;> cases o <;> rfl
  · intro db id o
    cases db <;> cases o <;> rfl
  · intro s docs
    rfl

/-- C4 counterexample: a delete issued with the loading flag initially false
is in flight while the gateway reports no busy state — `handleDeleteItem`
never calls `setLoading`. -/
theorem delete_inflight_not_busy :
    busyDuring { items := [], loading := false, error := none }
      (handleDeleteItem true "doc1" WriteOutcome.success) = false := rfl

/-- C4 amended: an add mutation always has the loading flag true at the moment
its write attempt is issued, but a delete mutation never touches the loading
flag, so no busy state is reported for deletes. -/
theorem add_busy_delete_never_loading :
    (∀ (s : AppState) (db : Bool) (uid : Option String) (item : NewItem)
        (o : WriteOutcome),
      busyDuring s (handleAddItem db uid item o) = true)
    ∧ (∀ (db : Bool) (id : String) (o : WriteOutcome),
      (handleDeleteItem db id o).filter isSetLoading = []) := by
  constructor
  · intro s db uid item o
    cases db <;> cases o <;> rfl
  · intro db id o
    cases db <;> cases o <;> rfl

/-- C5 counterexample: with the database initialized and auth ready but no
user id available, the data-fetching effect establishes no subscription —
the guard `if (!db || !isAuthReady || !userId) return;` gates the Mirror
subscription on the identity handshake. -/
theorem subscription_gated_on_userId :
    dataFetchingEffect true true none "default-app-id" = none := rfl

/-- C5 amended: the Mirror subscription is established exactly when the
database handle is present, auth is ready, and a non-falsy user id is
available; absence of a session identifier prevents the subscription. -/
theorem subscription_guard (db isAuthReady : Bool) (userId : Option String)
    (appId : String) :
    (dataFetchingEffect db isAuthReady userId appId).isSome
      = (db && isAuthReady && !jsFalsyStr userId) := by
  cases hf : jsFalsyStr userId <;> cases db <;> cases isAuthReady <;>
    simp [dataFetchingEffect, hf]

/-- C1 counterexample: submitting with amount string "0" (and with "-5")
passes the form's falsiness check, reaches the gateway, and a write is
attempted carrying the non-positive amount — no ValidationError-like signal
occurs and network interaction does happen. -/
theorem add_nonpositive_write_attempted :
    handleSubmit true (some "user1") "Groceries" "0" "expense"
        WriteOutcome.success
      = [Action.setLoading true,
         Action.addDocAttempt ⟨"Groceries", some 0, "expense"⟩ (some "user1")
           WriteOutcome.success,
         Action.setLoading false]
    ∧ handleSubmit true (some "user1") "Rent" "-5" "expense"
        WriteOutcome.success
      = [Action.setLoading true,
         Action.addDocAttempt ⟨"Rent", some (-5), "expense"⟩ (some "user1")
           WriteOutcome.success,
         Action.setLoading false] := by
  constructor <;> decide

/-- C1 amended: the only validation before network interaction is the form's
rejection of an empty description or empty amount string (surfaced as an
alert); any submission with both fields non-empty — whatever the parsed
amount, zero or negative included — attempts exactly one write with no
alert. -/
theorem submit_only_empty_validation (uid : Option String)
    (description amountStr ty : String) (o : WriteOutcome)
    (hd : description.isEmpty = false) (ha : amountStr.isEmpty = false) :
    ((handleSubmit true uid description amountStr ty o).filter
        isNetworkAttempt).length = 1
    ∧ (handleSubmit true uid description amountStr ty o).filter isAlert = []
    ∧ Action.addDocAttempt
          ⟨description, parseFloat amountStr, ty⟩ uid o
        ∈ handleSubmit true uid description amountStr ty o := by
  cases o <;>
    simp [handleSubmit, hd, ha, handleAddItem, isNetworkAttempt, isAlert,
      List.filter]

/-- Witness for C1's amended theorem at the concrete input of the
counterexample. -/
theorem submit_only_empty_validation_witness :
    ("Groceries".isEmpty = false ∧ "0".isEmpty = false)
    ∧ (((handleSubmit true (some "user1") "Groceries" "0" "expense"
            WriteOutcome.success).filter isNetworkAttempt).length = 1
       ∧ (handleSubmit true (some "user1") "Groceries" "0" "expense"
            WriteOutcome.success).filter isAlert = []
       ∧ Action.addDocAttempt ⟨"Groceries", parseFloat "0", "expense"⟩
             (some "user1") WriteOutcome.success
           ∈ handleSubmit true (some "user1") "Groceries" "0" "expense"
               WriteOutcome.success) :=
  ⟨⟨rfl, rfl⟩,
   submit_only_empty_validation (some "user1") "Groceries" "0" "expense"
     WriteOutcome.success rfl rfl⟩

/-- C8: every Snapshot the Ledger Mirror materializes from a change event is
sorted by `createdAt` descending: an entry with a strictly larger timestamp
appears strictly earlier. -/
theorem mirror_sorted_desc (docs : List StoreDoc) (i j : ℕ)
    (hi : i < (mirrorSnapshot docs).length)
    (hj : j < (mirrorSnapshot docs).length)
    (hgt : ((mirrorSnapshot docs).get ⟨j, hj⟩).createdAt
      < ((mirrorSnapshot docs).get ⟨i, hi⟩).createdAt) :
    i < j := by
  have hs : List.Pairwise (fun a b : Item => b.createdAt ≤ a.createdAt)
      (mirrorSnapshot docs) := by
    have h0 : List.Sorted createdAtDesc (queryCreatedAtDesc docs) :=
      List.sorted_insertionSort createdAtDesc docs
    unfold mirrorSnapshot
    exact List.pairwise_map.mpr (h0.imp (fun h => h))
  by_contra hnot
  rcases lt_or_eq_of_le (le_of_not_lt hnot) with hlt | heq
  · have hle := List.pairwise_iff_get.mp hs ⟨j, hj⟩ ⟨i, hi⟩ hlt
    exact absurd hgt (not_lt.mpr hle)
  · have : (⟨j, hj⟩ : Fin (mirrorSnapshot docs).length) = ⟨i, hi⟩ :=
      Fin.ext heq
    rw [this] at hgt
    exact absurd hgt (lt_irrefl _)

/-- Witness for C8 at concrete store contents with distinct timestamps. -/
theorem mirror_sorted_desc_witness :
    (1 < (mirrorSnapshot sampleDocs).length) ∧ (0 : ℕ) < 1 :=
  ⟨by decide,
   mirror_sorted_desc sampleDocs 0 1 (by decide) (by decide) (by decide)⟩

/-- C9: a successful delete is idempotent at the store (deleting again with
the same id changes nothing, the benign not-found outcome being success),
the entry is absent from the resulting store, the local state is untouched by
a successful delete, and a failed delete is caught: it only records the error
message instead of crashing. -/
theorem delete_idempotent (assign : NewItem → Option String → StoreDoc)
    (store : List StoreDoc) (id : String) (s : AppState) :
    storeRun assign (storeRun assign store (handleDeleteItem true id .success))
        (handleDeleteItem true id .success)
      = storeRun assign store (handleDeleteItem true id .success)
    ∧ (storeRun assign store (handleDeleteItem true id .success)).all
        (fun d => !(d.id == id)) = true
    ∧ applyActions s (handleDeleteItem true id .success) = s
    ∧ applyActions s (handleDeleteItem true id .failure)
      = { items := s.items, loading := s.loading,
          error := some "Could not delete the item." } := by
  have hrun : ∀ st : List StoreDoc,
      storeRun assign st (handleDeleteItem true id .success)
        = st.filter (fun d => !(d.id == id)) := fun st => rfl
  refine ⟨?_, ?_, rfl, rfl⟩
  · rw [hrun, hrun, List.filter_filter]
    apply List.filter_congr
    intro d _
    simp
  · rw [hrun]
    simp [List.all_eq_true, List.mem_filter]

end Budget
